import Mathlib

/-!
Verification of the glue-ginga plugin (a bridge between the Glue
data-visualization application and the Ginga image viewer) against its
natural-language specification.  The Python sources are shallowly embedded:
pure translation helpers become Lean functions, stateful callbacks become
explicit state-passing functions, and Python exceptions become `Except`
values.  Machine floats only enter through the numpy `astype(np.uint8)`
cast, which is modelled exactly on rationals (truncation toward zero,
wrapped modulo 256).
-/

namespace GlueGinga

/-- Python exceptions raised by the embedded code paths. -/
inductive PyErr where
  | indexError : PyErr
  | keyError : PyErr
  | valueError (msg : String) : PyErr
  | attributeError (msg : String) : PyErr
  | incompatibleAttribute : PyErr
  deriving Repr, DecidableEq

/-! ## Hub listener (plugins/Glue.py, `GingaHubListener`)

A glue dataset as consumed by `_data_added_cb` / `_data_to_image` /
`_data_to_table`: its label, dimensionality, components (in
`component_ids()` order, with the `visible_components` sublist used by the
table path), and optional coordinate metadata. -/

/-- One glue data component: `comp.categorical` selects between
`comp.labels` (strings) and `comp.data` (numbers; array payloads are
modelled as flat integer lists). -/
structure Component where
  label : String
  categorical : Bool
  data : List Int
  labels : List String
  deriving Repr, DecidableEq

/-- Coordinate metadata of a glue dataset: `coords.header` when present
(`hasattr(data.coords, "header")`) and the WCS header produced by
`data.coords.wcs.to_header()` when `hasattr(data.coords, "wcs")`.
Headers are modelled as key/value lists. -/
structure Coords where
  header : Option (List (String × String))
  wcsHeader : Option (List (String × String))
  deriving Repr, DecidableEq

/-- A glue dataset as received in a `DataCollectionAddMessage`. -/
structure GlueData where
  label : String
  ndim : Nat
  component_ids : List Component
  visible_components : List Component
  coords : Coords
  deriving Repr, DecidableEq

/-- A column of an astropy `Table`: string labels for a categorical
component, numeric data otherwise. -/
inductive ColData where
  | strCol (ls : List String)
  | numCol (ns : List Int)
  deriving Repr, DecidableEq

/-- The ginga `AstroImage.AstroImage` produced by `_data_to_image`:
the numpy payload of the first component, the optional metadata header,
the optional WCS header loaded into `image.wcs`, and the name set later
by `image.set(name=name)`. -/
structure AstroImageObj where
  data_np : List Int
  metaHeader : Option (List (String × String))
  wcsHeader : Option (List (String × String))
  name : Option String
  deriving Repr, DecidableEq

/-- The ginga `AstroTable.AstroTable` produced by `_data_to_table`. -/
structure AstroTableObj where
  cols : List (String × ColData)
  name : Option String
  deriving Repr, DecidableEq

/-- A toolkit-native object held in the data source: either an image or a
table. -/
inductive GingaObject where
  | image (img : AstroImageObj)
  | table (tab : AstroTableObj)
  deriving Repr, DecidableEq

/-- Embedding of `image.set(name=name)` on either kind of object. -/
def GingaObject.setName : GingaObject → String → GingaObject
  | .image i, n => .image { i with name := some n }
  | .table t, n => .table { t with name := some n }

/-- Whether a stored object is a table (rather than an image). -/
def GingaObject.isTable : GingaObject → Bool
  | .table _ => true
  | .image _ => false

/-- Embedding of `GingaHubListener._data_to_image`: `ids =
data.component_ids()` followed by `data_np = data[ids[0]]`, so on a
dataset with no components Python raises `IndexError` at `ids[0]`;
otherwise the image wraps the first component with the optional headers. -/
def data_to_image (data : GlueData) : Except PyErr AstroImageObj :=
  match data.component_ids with
  | [] => .error .indexError
  | c :: _ =>
      .ok { data_np := c.data
            metaHeader := data.coords.header
            wcsHeader := data.coords.wcsHeader
            name := none }

/-- Embedding of `GingaHubListener._data_to_table`: one table column per
visible component, string labels for categorical components and numeric
data otherwise. -/
def data_to_table (data : GlueData) : AstroTableObj :=
  { cols := data.visible_components.map fun comp =>
      (comp.label,
       if comp.categorical then ColData.strCol comp.labels
       else ColData.numCol comp.data)
    name := none }

/-- Assignment `datasrc[name] = image` on the ginga `Datasrc` store
(created with `length=0`, i.e. no eviction), modelled as an association
list keyed by name: an existing entry is overwritten in place, a new one
is appended. -/
def setItem : List (String × GingaObject) → String → GingaObject →
    List (String × GingaObject)
  | [], k, v => [(k, v)]
  | (k', v') :: rest, k, v =>
      if k' == k then (k, v) :: rest else (k', v') :: setItem rest k v

/-- Lookup `datasrc[name]` in the association-list model. -/
def lookupItem : List (String × GingaObject) → String → Option GingaObject
  | [], _ => none
  | (k', v') :: rest, k => if k' == k then some v' else lookupItem rest k

/-- State of the hub listener: the data source contents and the log of
`data_in` callbacks fired (`make_callback("data_in", image)`), in order. -/
structure ListenerState where
  datasrc : List (String × GingaObject)
  dataIn : List GingaObject
  deriving Repr, DecidableEq

/-- Embedding of `GingaHubListener._data_added_cb`: convert the dataset to
a table when `data.ndim == 1` and to an image otherwise, set its name to
the dataset label, store it in the data source under that label, and fire
the `data_in` callback with it.  The image path can raise `IndexError`
(see `data_to_image`), in which case nothing is stored or fired. -/
def data_added_cb (st : ListenerState) (data : GlueData) :
    Except PyErr ListenerState := do
  let name := data.label
  let image ←
    if data.ndim == 1 then Except.ok (GingaObject.table (data_to_table data))
    else (data_to_image data).map GingaObject.image
  let image := image.setName name
  Except.ok { datasrc := setItem st.datasrc name image
              dataIn := st.dataIn ++ [image] }

theorem lookupItem_setItem (l : List (String × GingaObject)) (k : String)
    (v : GingaObject) : lookupItem (setItem l k v) k = some v := by
  induction l with
  | nil => simp [setItem, lookupItem]
  | cons hd tl ih =>
      obtain ⟨k', v'⟩ := hd
      by_cases h : k' == k
      · simp [setItem, h, lookupItem]
      · simp [setItem, h, lookupItem, ih]

/-- A listener with an empty data source and no callbacks fired. -/
def emptyListener : ListenerState := { datasrc := [], dataIn := [] }

/-- A glue dataset with no components: `Data()` in glue has shape `()`,
hence `ndim = 0`, and an empty `component_ids()` list. -/
def emptyData : GlueData :=
  { label := "empty", ndim := 0, component_ids := [],
    visible_components := [],
    coords := { header := none, wcsHeader := none } }

/-- C1 counterexample: the conversion is not a total function
dataset to image-or-table.  On a dataset with no components and
`ndim = 0` (not 1) the image path evaluates `ids[0]` on an empty list and
raises `IndexError`; nothing is stored in the data source and no
`data_in` callback fires, refuting the claim as stated at this input. -/
theorem C1_counterexample :
    data_added_cb emptyListener emptyData = Except.error PyErr.indexError :=
  rfl

/-- C1 (amended): for every dataset that is one-dimensional or has at
least one component, `_data_added_cb` converts it to a toolkit-native
table when `ndim = 1` and to an image otherwise, stores the result in the
data source under the label of the dataset, and fires the `data_in`
callback with it. -/
theorem C1_data_added (st : ListenerState) (data : GlueData)
    (h : data.ndim = 1 ∨ data.component_ids ≠ []) :
    ∃ st' obj, data_added_cb st data = Except.ok st' ∧
      obj.isTable = (data.ndim == 1) ∧
      lookupItem st'.datasrc data.label = some obj ∧
      st'.dataIn = st.dataIn ++ [obj] := by
  by_cases hn : data.ndim == 1
  · refine ⟨{ datasrc := setItem st.datasrc data.label
                ((GingaObject.table (data_to_table data)).setName data.label)
              dataIn := st.dataIn ++
                [(GingaObject.table (data_to_table data)).setName data.label] },
      (GingaObject.table (data_to_table data)).setName data.label,
      ?_, ?_, ?_, ?_⟩
    · simp [data_added_cb, hn]
      rfl
    · simp [hn, GingaObject.setName, GingaObject.isTable]
    · exact lookupItem_setItem st.datasrc data.label _
    · rfl
  · have hc : data.component_ids ≠ [] := by
      rcases h with h1 | h2
      · exact absurd (by simpa using h1) hn
      · exact h2
    rcases hcomp : data.component_ids with _ | ⟨c, rest⟩
    · exact absurd hcomp hc
    · refine ⟨{ datasrc := setItem st.datasrc data.label
                  ((GingaObject.image
                    { data_np := c.data, metaHeader := data.coords.header,
                      wcsHeader := data.coords.wcsHeader,
                      name := none }).setName data.label)
                dataIn := st.dataIn ++
                  [(GingaObject.image
                    { data_np := c.data, metaHeader := data.coords.header,
                      wcsHeader := data.coords.wcsHeader,
                      name := none }).setName data.label] },
        (GingaObject.image
          { data_np := c.data, metaHeader := data.coords.header,
            wcsHeader := data.coords.wcsHeader, name := none }).setName data.label,
        ?_, ?_, ?_, ?_⟩
      · simp [data_added_cb, hn, data_to_image, hcomp, Except.map]
        rfl
      · simp [hn, GingaObject.setName, GingaObject.isTable]
      · exact lookupItem_setItem st.datasrc data.label _
      · rfl

/-- A concrete one-dimensional dataset with a single numeric component. -/
def oneDimData : GlueData :=
  { label := "tab1", ndim := 1,
    component_ids := [{ label := "x", categorical := false,
                        data := [3, 4], labels := [] }],
    visible_components := [{ label := "x", categorical := false,
                             data := [3, 4], labels := [] }],
    coords := { header := none, wcsHeader := none } }

/-- Witness for C1 at a concrete one-dimensional dataset. -/
theorem C1_data_added_witness :
    ∃ st' obj, data_added_cb emptyListener oneDimData = Except.ok st' ∧
      obj.isTable = (oneDimData.ndim == 1) ∧
      lookupItem st'.datasrc oneDimData.label = some obj ∧
      st'.dataIn = emptyListener.dataIn ++ [obj] :=
  C1_data_added emptyListener oneDimData (Or.inl rfl)

/-! ## Image wrappers (qt/layer_artist.py, `DataImage` / `SubsetImage`)

The two ginga image subclasses wrap glue layer-state objects and extract 2D
views on demand.  Views handed to `_slice` are pairs of numpy slices; the
only concretely built view is the tenfold-downsampled one of
`_get_fast_data`. -/

/-- A numpy slice as used by the wrappers: either unconstrained or
`slice(None, None, n)` with a step. -/
inductive SliceSpec where
  | full : SliceSpec
  | step (n : Nat) : SliceSpec
  deriving Repr, DecidableEq

/-- A 2D view request, one slice per axis. -/
abbrev View := SliceSpec × SliceSpec

/-- The view built by both `_get_fast_data` methods:
`(slice(None, None, 10), slice(None, None, 10))`. -/
def fast_view : View := (SliceSpec.step 10, SliceSpec.step 10)

/-- The glue `ImageLayerState` as consumed by `DataImage`: only the members
the wrapper reads are modelled.  `get_sliced_data` takes the view and the
`use_cache` keyword and returns the sliced 2D array (entries as rationals). -/
structure ImageLayerState where
  get_sliced_data_shape : ℕ × ℕ
  get_sliced_data : View → Bool → List (List ℚ)

/-- A color as an rgb triple of floats in `[0, 1]`, the result of
`color2rgb(self.layer_state.color)`. -/
structure RGB where
  r : ℚ
  g : ℚ
  b : ℚ
  deriving Repr, DecidableEq

/-- The glue `ImageSubsetLayerState` as consumed by `SubsetImage`:
`get_sliced_data` computes the subset mask for a view (entries 0/1 for a
boolean mask, fractional otherwise) and can raise `IncompatibleAttribute`. -/
structure ImageSubsetLayerState where
  color : RGB
  get_sliced_data_shape : ℕ × ℕ
  get_sliced_data : View → Bool → Except PyErr (List (List ℚ))

/-- The numpy cast `astype(np.uint8)` applied to a float value, modelled
exactly on rationals: truncate toward zero (`Int.tdiv`), then wrap modulo
256.  All values cast in this file are nonnegative, where truncation
toward zero coincides with the floor. -/
def toUint8 (q : ℚ) : ℕ := ((Int.tdiv q.num (q.den : Int)).emod 256).toNat

/-- Embedding of `forbidden(*args)`: raises `ValueError("Forbidden")`
whatever the arguments. -/
def forbidden {α : Type} (args : List α) : Except PyErr Unit :=
  Except.error (PyErr.valueError "Forbidden")

namespace DataImage

/-- Class attribute aliases `get_data = _get_data = copy_data = set_data =
get_array = transfer = forbidden` on `DataImage`. -/
def get_data {α : Type} (args : List α) : Except PyErr Unit := forbidden args

def _get_data {α : Type} (args : List α) : Except PyErr Unit := forbidden args

def copy_data {α : Type} (args : List α) : Except PyErr Unit := forbidden args

def set_data {α : Type} (args : List α) : Except PyErr Unit := forbidden args

def get_array {α : Type} (args : List α) : Except PyErr Unit := forbidden args

def transfer {α : Type} (args : List α) : Except PyErr Unit := forbidden args

/-- Property `DataImage.shape`: the shape of the 2D view into the data. -/
def shape (ls : ImageLayerState) : ℕ × ℕ := ls.get_sliced_data_shape

/-- Embedding of `DataImage._slice`: delegates to
`layer_state.get_sliced_data(view=view, use_cache=False)`. -/
def _slice (ls : ImageLayerState) (view : View) : List (List ℚ) :=
  ls.get_sliced_data view false

/-- Embedding of `DataImage._get_fast_data`. -/
def _get_fast_data (ls : ImageLayerState) : List (List ℚ) :=
  _slice ls fast_view

end DataImage

namespace SubsetImage

/-- Class attribute aliases on `SubsetImage`, identical to `DataImage`. -/
def get_data {α : Type} (args : List α) : Except PyErr Unit := forbidden args

def _get_data {α : Type} (args : List α) : Except PyErr Unit := forbidden args

def copy_data {α : Type} (args : List α) : Except PyErr Unit := forbidden args

def set_data {α : Type} (args : List α) : Except PyErr Unit := forbidden args

def get_array {α : Type} (args : List α) : Except PyErr Unit := forbidden args

def transfer {α : Type} (args : List α) : Except PyErr Unit := forbidden args

/-- Property `SubsetImage.shape`: the shape of the 2D view into the mask. -/
def shape (ls : ImageSubsetLayerState) : ℕ × ℕ := ls.get_sliced_data_shape

/-- Embedding of `SubsetImage._rgb_from_mask`: with `r, g, b =
color2rgb(self.layer_state.color)`, compute `ones = mask * 0 + 255` and
`alpha = mask * 127`, stack `(ones * r, ones * g, ones * b, alpha)` along
a new last axis and cast to uint8.  The result is a uint8 array (channel
entries are naturals below 256). -/
def _rgb_from_mask (ls : ImageSubsetLayerState) (mask : List (List ℚ)) :
    List (List (List ℕ)) :=
  mask.map fun row => row.map fun m =>
    let ones : ℚ := m * 0 + 255
    let alpha : ℚ := m * 127
    [toUint8 (ones * ls.color.r), toUint8 (ones * ls.color.g),
     toUint8 (ones * ls.color.b), toUint8 alpha]

/-- A numpy array returned by `SubsetImage._slice`: the uint8 RGBA stack
from the mask path, or the float64 zeros from `np.zeros` on the
`IncompatibleAttribute` path. -/
inductive NpArray where
  | u8 (a : List (List (List ℕ)))
  | f64 (a : List (List (List ℚ)))
  deriving Repr, DecidableEq

/-- Embedding of `np.zeros` for a 3D shape: nested lists of float zeros. -/
def np_zeros3 (d1 d2 d3 : ℕ) : List (List (List ℚ)) :=
  List.replicate d1 (List.replicate d2 (List.replicate d3 0))

/-- Embedding of `SubsetImage._slice`: render the sliced mask through
`_rgb_from_mask`; if computing the mask raises `IncompatibleAttribute`,
return `np.zeros(self.shape + (4,))` instead.  Any other exception
propagates. -/
def _slice (ls : ImageSubsetLayerState) (view : View) :
    Except PyErr NpArray :=
  match ls.get_sliced_data view false with
  | .ok mask => .ok (.u8 (_rgb_from_mask ls mask))
  | .error .incompatibleAttribute =>
      .ok (.f64 (np_zeros3 (shape ls).1 (shape ls).2 4))
  | .error e => .error e

/-- Embedding of `SubsetImage._get_fast_data`. -/
def _get_fast_data (ls : ImageSubsetLayerState) : Except PyErr NpArray :=
  _slice ls fast_view

end SubsetImage

/-- The layer color gray 0.5: `color2rgb` yields the triple (1/2, 1/2, 1/2)
for the matplotlib color string "0.5". -/
def grayHalf : RGB := { r := 1/2, g := 1/2, b := 1/2 }

/-- A concrete subset layer state with color gray 0.5 whose mask is the
single boolean pixel True. -/
def grayLayerState : ImageSubsetLayerState :=
  { color := grayHalf, get_sliced_data_shape := (1, 1),
    get_sliced_data := fun _ _ => .ok [[1]] }

/-- C3 counterexample: on the boolean mask `[[True]]` with layer color
(1/2, 1/2, 1/2), the red channel is the uint8 truncation 127, which is
not equal to 255 times the color component (255/2), refuting the claim
that each color channel equals 255 times the component. -/
theorem C3_counterexample :
    SubsetImage._rgb_from_mask grayLayerState [[1]] = [[[127, 127, 127, 127]]] ∧
    ((127 : ℚ) ≠ 255 * grayLayerState.color.r) := by
  constructor
  · simp only [SubsetImage._rgb_from_mask, grayLayerState, grayHalf,
      List.map_cons, List.map_nil]
    norm_num [toUint8]
    all_goals decide
  · norm_num [grayLayerState, grayHalf]

theorem toUint8_natCast (n : ℕ) (hn : n ≤ 255) : toUint8 (n : ℚ) = n := by
  unfold toUint8
  rw [Rat.num_natCast, Rat.den_natCast]
  have h1 : Int.tdiv (n : ℤ) ((1 : ℕ) : ℤ) = (n : ℤ) := by
    simp [Int.tdiv_one]
  rw [h1]
  show ((n : ℤ) % 256).toNat = n
  omega

theorem toUint8_lt (q : ℚ) : toUint8 q < 256 := by
  unfold toUint8
  have h1 : (Int.tdiv q.num (q.den : Int)).emod 256 < 256 :=
    Int.emod_lt_of_pos _ (by norm_num)
  omega

/-- C3 (amended): `_rgb_from_mask` returns a uint8 array of shape
`mask.shape + (4,)` in which each color channel is the uint8 truncation of
255 times the corresponding color component and the alpha channel is the
uint8 truncation of 127 times the mask value; in particular, alpha is 127
where a boolean mask is true and 0 where it is false, and a channel whose
exact value `255 * c` is a natural number at most 255 equals it exactly. -/
theorem C3_rgb_from_mask (ls : ImageSubsetLayerState) (mask : List (List ℚ)) :
    SubsetImage._rgb_from_mask ls mask =
      mask.map (fun row => row.map (fun m =>
        [toUint8 (255 * ls.color.r), toUint8 (255 * ls.color.g),
         toUint8 (255 * ls.color.b), toUint8 (127 * m)])) ∧
    (SubsetImage._rgb_from_mask ls mask).length = mask.length ∧
    (∀ row ∈ SubsetImage._rgb_from_mask ls mask, ∀ pix ∈ row,
       pix.length = 4 ∧ ∀ ch ∈ pix, ch < 256) ∧
    toUint8 (127 * (1 : ℚ)) = 127 ∧ toUint8 (127 * (0 : ℚ)) = 0 ∧
    (∀ n : ℕ, n ≤ 255 → toUint8 (n : ℚ) = n) := by
  have hpix : (fun m : ℚ =>
      [toUint8 ((m * 0 + 255) * ls.color.r), toUint8 ((m * 0 + 255) * ls.color.g),
       toUint8 ((m * 0 + 255) * ls.color.b), toUint8 (m * 127)]) =
      (fun m : ℚ =>
      [toUint8 (255 * ls.color.r), toUint8 (255 * ls.color.g),
       toUint8 (255 * ls.color.b), toUint8 (127 * m)]) := by
    funext m
    rw [mul_zero, zero_add, mul_comm m 127]
  refine ⟨?_, ?_, ?_, ?_, ?_, toUint8_natCast⟩
  · unfold SubsetImage._rgb_from_mask
    simp only [hpix]
  · simp [SubsetImage._rgb_from_mask]
  · intro row hrow pix hpix'
    unfold SubsetImage._rgb_from_mask at hrow
    simp only [List.mem_map] at hrow
    obtain ⟨r0, _, hr0⟩ := hrow
    subst hr0
    simp only [List.mem_map] at hpix'
    obtain ⟨m0, _, hm0⟩ := hpix'
    subst hm0
    refine ⟨rfl, ?_⟩
    intro ch hch
    simp only [List.mem_cons, List.not_mem_nil, or_false] at hch
    rcases hch with h | h | h | h <;> subst h <;> exact toUint8_lt _
  · norm_num [toUint8]
    all_goals decide
  · norm_num [toUint8]

/-- Witness for the hypothesis-bearing clause of C3: the channel value of
a natural color scale is preserved exactly, evaluated at 127. -/
theorem C3_rgb_from_mask_witness :
    SubsetImage._rgb_from_mask grayLayerState [[0]] = [[[127, 127, 127, 0]]] ∧
    toUint8 ((127 : ℕ) : ℚ) = 127 := by
  constructor
  · simp only [SubsetImage._rgb_from_mask, grayLayerState, grayHalf,
      List.map_cons, List.map_nil]
    norm_num [toUint8]
    all_goals decide
  · exact (C3_rgb_from_mask grayLayerState [[0]]).2.2.2.2.2 127 (by norm_num)

/-- C7: every 2D view extraction performed by the wrappers, both `_slice`
and the downsampled `_get_fast_data`, requests the sliced data from the
layer state with `use_cache = False`, and `_get_fast_data` is exactly
`_slice` at the step-10 view. -/
theorem C7_use_cache_false (ls : ImageLayerState)
    (ls2 : ImageSubsetLayerState) (view : View) :
    DataImage._slice ls view = ls.get_sliced_data view false ∧
    DataImage._get_fast_data ls = ls.get_sliced_data fast_view false ∧
    (SubsetImage._slice ls2 view =
      match ls2.get_sliced_data view false with
      | .ok mask => .ok (.u8 (SubsetImage._rgb_from_mask ls2 mask))
      | .error .incompatibleAttribute =>
          .ok (.f64 (SubsetImage.np_zeros3 (SubsetImage.shape ls2).1
            (SubsetImage.shape ls2).2 4))
      | .error e => .error e) ∧
    SubsetImage._get_fast_data ls2 = SubsetImage._slice ls2 fast_view :=
  ⟨rfl, rfl, rfl, rfl⟩

/-- C8: on both wrappers, each of the six data-access methods
`get_data`, `_get_data`, `copy_data`, `set_data`, `get_array`, `transfer`
raises `ValueError("Forbidden")` for every argument list. -/
theorem C8_forbidden {α : Type} (args : List α) :
    DataImage.get_data args = Except.error (PyErr.valueError "Forbidden") ∧
    DataImage._get_data args = Except.error (PyErr.valueError "Forbidden") ∧
    DataImage.copy_data args = Except.error (PyErr.valueError "Forbidden") ∧
    DataImage.set_data args = Except.error (PyErr.valueError "Forbidden") ∧
    DataImage.get_array args = Except.error (PyErr.valueError "Forbidden") ∧
    DataImage.transfer args = Except.error (PyErr.valueError "Forbidden") ∧
    SubsetImage.get_data args = Except.error (PyErr.valueError "Forbidden") ∧
    SubsetImage._get_data args = Except.error (PyErr.valueError "Forbidden") ∧
    SubsetImage.copy_data args = Except.error (PyErr.valueError "Forbidden") ∧
    SubsetImage.set_data args = Except.error (PyErr.valueError "Forbidden") ∧
    SubsetImage.get_array args = Except.error (PyErr.valueError "Forbidden") ∧
    SubsetImage.transfer args = Except.error (PyErr.valueError "Forbidden") :=
  ⟨rfl, rfl, rfl, rfl, rfl, rfl, rfl, rfl, rfl, rfl, rfl, rfl⟩

/-- C9: if computing the subset mask raises `IncompatibleAttribute`,
`SubsetImage._slice` returns, instead of propagating the exception, the
all-zero array `np.zeros(shape + (4,))`: its outer length is the first
shape component, every row has the second as length, every pixel has four
channels, and every entry is zero. -/
theorem C9_incompatible (ls : ImageSubsetLayerState) (view : View)
    (h : ls.get_sliced_data view false = Except.error PyErr.incompatibleAttribute) :
    SubsetImage._slice ls view =
      Except.ok (SubsetImage.NpArray.f64
        (SubsetImage.np_zeros3 (SubsetImage.shape ls).1 (SubsetImage.shape ls).2 4)) ∧
    (SubsetImage.np_zeros3 (SubsetImage.shape ls).1 (SubsetImage.shape ls).2 4).length =
      (SubsetImage.shape ls).1 ∧
    (∀ row ∈ SubsetImage.np_zeros3 (SubsetImage.shape ls).1 (SubsetImage.shape ls).2 4,
       row.length = (SubsetImage.shape ls).2 ∧
       ∀ pix ∈ row, pix.length = 4 ∧ ∀ x ∈ pix, x = 0) := by
  refine ⟨?_, ?_, ?_⟩
  · unfold SubsetImage._slice
    rw [h]
  · simp [SubsetImage.np_zeros3]
  · intro row hrow
    rw [SubsetImage.np_zeros3, List.mem_replicate] at hrow
    rw [hrow.2]
    refine ⟨by simp, ?_⟩
    intro pix hpix
    rw [List.mem_replicate] at hpix
    rw [hpix.2]
    refine ⟨by simp, ?_⟩
    intro x hx
    rw [List.mem_replicate] at hx
    exact hx.2

/-- A subset layer state whose mask computation always raises
`IncompatibleAttribute`. -/
def incompatibleLayerState : ImageSubsetLayerState :=
  { color := grayHalf, get_sliced_data_shape := (2, 3),
    get_sliced_data := fun _ _ => .error .incompatibleAttribute }

/-- Witness for C9 at a concrete incompatible layer state of shape (2, 3). -/
theorem C9_incompatible_witness :
    SubsetImage._slice incompatibleLayerState fast_view =
      Except.ok (SubsetImage.NpArray.f64
        (SubsetImage.np_zeros3 (SubsetImage.shape incompatibleLayerState).1
          (SubsetImage.shape incompatibleLayerState).2 4)) ∧
    (SubsetImage.np_zeros3 (SubsetImage.shape incompatibleLayerState).1
      (SubsetImage.shape incompatibleLayerState).2 4).length =
      (SubsetImage.shape incompatibleLayerState).1 ∧
    (∀ row ∈ SubsetImage.np_zeros3 (SubsetImage.shape incompatibleLayerState).1
        (SubsetImage.shape incompatibleLayerState).2 4,
       row.length = (SubsetImage.shape incompatibleLayerState).2 ∧
       ∀ pix ∈ row, pix.length = 4 ∧ ∀ x ∈ pix, x = 0) :=
  C9_incompatible incompatibleLayerState fast_view rfl

/-! ## Layer artists (qt/layer_artist.py, canvas synchronization)

The ginga canvas is modelled as a list of tagged objects carrying a
z-order.  The artists read only `visible` and `zorder` from the glue layer
state; `_img` of an artist is modelled by whether the wrapped image object
exists (is truthy). -/

/-- A ginga canvas object as the artists see it: its tag and z-order. -/
structure CanvasObj where
  tag : String
  zorder : Int
  deriving Repr, DecidableEq

/-- The ginga canvas: the list of objects, in insertion order. -/
abbrev Canvas := List CanvasObj

/-- Embedding of `canvas.get_object_by_tag`: the first object carrying the
tag, if any (ginga keeps one object per tag; `KeyError` is modelled by
`none`). -/
def get_object_by_tag (c : Canvas) (t : String) : Option CanvasObj :=
  c.find? (fun o => o.tag == t)

/-- Embedding of `canvas_img.set_zorder(z)` on the object found by tag:
the first object with the tag gets the new z-order. -/
def set_zorder_by_tag : Canvas → String → Int → Canvas
  | [], _, _ => []
  | o :: os, t, z =>
      if o.tag == t then { o with zorder := z } :: os
      else o :: set_zorder_by_tag os t z

/-- The z-order ginga gives a canvas object on creation (both
`canvas.add` of the wrapped subset image and `set_image` of the data
image leave the default z-order 0). -/
def default_zorder : Int := 0

/-- Embedding of adding the wrapped image under the artist tag
(`canvas.add(self._cimg, tag=self._tag)` resp. `set_image(self._img)`). -/
def canvas_add (c : Canvas) (t : String) : Canvas :=
  c ++ [{ tag := t, zorder := default_zorder }]

/-- Embedding of `canvas.delete_objects_by_tag([tag])`: every object under
the tag is removed; a missing tag is a no-op. -/
def delete_objects_by_tag (c : Canvas) (t : String) : Canvas :=
  c.filter (fun o => !(o.tag == t))

/-- The glue layer state fields synchronized by the artists. -/
structure LayerState where
  visible : Bool
  zorder : Int
  deriving Repr, DecidableEq

/-- A layer artist: its canvas tag, whether its wrapped image object
exists, and its layer state. -/
structure Artist where
  tag : String
  has_img : Bool
  state : LayerState
  deriving Repr, DecidableEq

/-- A subset layer artist additionally tracks whether the subset mask is
computable for the displayed data (`_check_enabled`). -/
structure SubsetArtist extends Artist where
  mask_computable : Bool
  deriving Repr, DecidableEq

/-- Embedding of `GingaLayerArtist.update` (the base class): look the
object up by tag; on `KeyError` pass, otherwise set its z-order to
`self.state.zorder`. -/
def base_update (a : Artist) (c : Canvas) : Canvas :=
  match get_object_by_tag c a.tag with
  | none => c
  | some _ => set_zorder_by_tag c a.tag a.state.zorder

/-- Embedding of `_ensure_added`: add the wrapped image under the tag if
no object carries it yet. -/
def ensure_added (a : Artist) (c : Canvas) : Canvas :=
  match get_object_by_tag c a.tag with
  | none => canvas_add c a.tag
  | some _ => c

/-- Embedding of `GingaLayerArtist.clear`. -/
def artist_clear (a : Artist) (c : Canvas) : Canvas :=
  delete_objects_by_tag c a.tag

/-- Embedding of `GingaImageLayer.update`: first the base-class z-order
sync, then add the image when visible (and the wrapped image exists) or
clear it when not visible; `redraw` has no canvas-content effect. -/
def image_layer_update (a : Artist) (c : Canvas) : Canvas :=
  let c1 := base_update a c
  if a.state.visible && a.has_img then ensure_added a c1
  else if a.state.visible = false then artist_clear a c1
  else c1

/-- Embedding of `GingaSubsetImageLayer.update`: the base-class z-order
sync, then `_check_enabled` (which only syncs the enabled flag from the
mask computability), then the same visibility logic on the canvas.
Returns the canvas together with the resulting enabled flag. -/
def subset_layer_update (a : SubsetArtist) (c : Canvas) : Canvas × Bool :=
  let c1 := base_update a.toArtist c
  let enabled := a.mask_computable
  let c2 :=
    if a.state.visible && a.has_img then ensure_added a.toArtist c1
    else if a.state.visible = false then artist_clear a.toArtist c1
    else c1
  (c2, enabled)

theorem get_object_delete (c : Canvas) (t : String) :
    get_object_by_tag (delete_objects_by_tag c t) t = none := by
  induction c with
  | nil => rfl
  | cons o os ih =>
      by_cases h : o.tag == t
      · simpa [delete_objects_by_tag, List.filter_cons, h] using ih
      · simpa [delete_objects_by_tag, get_object_by_tag, List.filter_cons, h,
          List.find?_cons] using ih

theorem get_object_add_of_none (c : Canvas) (t : String)
    (h : get_object_by_tag c t = none) :
    get_object_by_tag (canvas_add c t) t =
      some { tag := t, zorder := default_zorder } := by
  induction c with
  | nil => simp [canvas_add, get_object_by_tag, List.find?]
  | cons o os ih =>
      unfold get_object_by_tag at h ⊢
      rw [List.find?_cons] at h
      by_cases ho : o.tag == t
      · simp [ho] at h
      · have h' : List.find? (fun o => o.tag == t) os = none := by
          simpa [ho] using h
        have := ih h'
        unfold get_object_by_tag at this
        simpa [canvas_add, List.find?_cons, ho] using this

theorem get_object_set_zorder (c : Canvas) (t : String) (z : Int) (o : CanvasObj)
    (h : get_object_by_tag c t = some o) :
    get_object_by_tag (set_zorder_by_tag c t z) t =
      some { tag := t, zorder := z } := by
  induction c with
  | nil => simp [get_object_by_tag] at h
  | cons hd tl ih =>
      unfold get_object_by_tag at h ⊢
      rw [List.find?_cons] at h
      by_cases hh : hd.tag == t
      · have htag : hd.tag = t := by simpa using hh
        simp [set_zorder_by_tag, hh, List.find?_cons, htag]
      · have h' : List.find? (fun o => o.tag == t) tl = some o := by
          simpa [hh] using h
        have := ih (by simpa [get_object_by_tag] using h')
        unfold get_object_by_tag at this
        simpa [set_zorder_by_tag, hh, List.find?_cons] using this

theorem ilu_pos (a : Artist) (c : Canvas) (hv : a.state.visible = true)
    (hi : a.has_img = true) :
    image_layer_update a c = ensure_added a (base_update a c) := by
  unfold image_layer_update
  rw [hv, hi]
  rfl

theorem ilu_invisible (a : Artist) (c : Canvas) (hv : a.state.visible = false) :
    image_layer_update a c = artist_clear a (base_update a c) := by
  unfold image_layer_update
  rw [hv]
  rfl

theorem ilu_noimg (a : Artist) (c : Canvas) (hv : a.state.visible = true)
    (hi : a.has_img = false) :
    image_layer_update a c = base_update a c := by
  unfold image_layer_update
  rw [hv, hi]
  rfl

/-- The three canvas facts shared by both concrete updates, proved once
over the common update expression. -/
theorem canvas_update_spec (a : Artist) (c : Canvas) :
    (a.state.visible = true → a.has_img = true →
      (get_object_by_tag (image_layer_update a c) a.tag).isSome = true) ∧
    (a.state.visible = false →
      get_object_by_tag (image_layer_update a c) a.tag = none) ∧
    ((get_object_by_tag c a.tag).isSome = true →
      (get_object_by_tag (image_layer_update a c) a.tag = none ∨
       get_object_by_tag (image_layer_update a c) a.tag =
         some { tag := a.tag, zorder := a.state.zorder })) := by
  refine ⟨?_, ?_, ?_⟩
  · intro hv hi
    rw [ilu_pos a c hv hi]
    rcases h0 : get_object_by_tag c a.tag with _ | o
    · have hb : base_update a c = c := by
        unfold base_update
        rw [h0]
      rw [hb]
      simp [ensure_added, h0, get_object_add_of_none c a.tag h0]
    · have hz := get_object_set_zorder c a.tag a.state.zorder o h0
      have hb : base_update a c = set_zorder_by_tag c a.tag a.state.zorder := by
        unfold base_update
        rw [h0]
      rw [hb]
      simp [ensure_added, hz]
  · intro hv
    rw [ilu_invisible a c hv]
    exact get_object_delete _ a.tag
  · intro hpre
    rcases h0 : get_object_by_tag c a.tag with _ | o
    · rw [h0] at hpre
      simp at hpre
    · have hz := get_object_set_zorder c a.tag a.state.zorder o h0
      have hb : base_update a c = set_zorder_by_tag c a.tag a.state.zorder := by
        unfold base_update
        rw [h0]
      by_cases hv : a.state.visible = true
      · by_cases hi : a.has_img = true
        · right
          rw [ilu_pos a c hv hi, hb]
          simp [ensure_added, hz]
        · right
          have hi' : a.has_img = false := by simpa using hi
          rw [ilu_noimg a c hv hi', hb]
          exact hz
      · left
        have hv' : a.state.visible = false := by simpa using hv
        rw [ilu_invisible a c hv']
        exact get_object_delete _ a.tag

/-- C5 counterexample: an image layer whose state is visible with z-order
5, whose wrapped image exists, updated against an empty canvas: update
adds the tagged object with the ginga default z-order 0, so the object is
present with z-order 0, not the z-order 5 of the layer state, refuting the
claim that the z-order of the tagged object equals the layer-state z-order
whenever the object is present after update. -/
theorem C5_counterexample :
    image_layer_update
        { tag := "_image", has_img := true,
          state := { visible := true, zorder := 5 } } [] =
      [{ tag := "_image", zorder := 0 }] ∧
    get_object_by_tag
        (image_layer_update
          { tag := "_image", has_img := true,
            state := { visible := true, zorder := 5 } } []) "_image" =
      some { tag := "_image", zorder := 0 } ∧
    (0 : Int) ≠ 5 := by
  refine ⟨rfl, rfl, by decide⟩

/-- C5 (amended): after every update of an image or subset layer artist,
the tagged object is present on the canvas if the layer state is visible
and the wrapped image exists, and absent if the layer state is not
visible; and an object that was already present when update began is,
when still present afterwards, carrying the layer-state z-order (an
object first added by this update keeps the canvas default z-order
instead). -/
theorem C5_update (a : Artist) (sa : SubsetArtist) (c d : Canvas) :
    ((a.state.visible = true → a.has_img = true →
       (get_object_by_tag (image_layer_update a c) a.tag).isSome = true) ∧
     (a.state.visible = false →
       get_object_by_tag (image_layer_update a c) a.tag = none) ∧
     ((get_object_by_tag c a.tag).isSome = true →
       (get_object_by_tag (image_layer_update a c) a.tag = none ∨
        get_object_by_tag (image_layer_update a c) a.tag =
          some { tag := a.tag, zorder := a.state.zorder }))) ∧
    ((sa.state.visible = true → sa.has_img = true →
       (get_object_by_tag (subset_layer_update sa d).1 sa.tag).isSome = true) ∧
     (sa.state.visible = false →
       get_object_by_tag (subset_layer_update sa d).1 sa.tag = none) ∧
     ((get_object_by_tag d sa.tag).isSome = true →
       (get_object_by_tag (subset_layer_update sa d).1 sa.tag = none ∨
        get_object_by_tag (subset_layer_update sa d).1 sa.tag =
          some { tag := sa.tag, zorder := sa.state.zorder }))) := by
  constructor
  · exact canvas_update_spec a c
  · have h : (subset_layer_update sa d).1 = image_layer_update sa.toArtist d := rfl
    rw [h]
    exact canvas_update_spec sa.toArtist d

/-- Witness for C5 at concrete artists: a visible image artist over an
empty canvas and an invisible subset artist over a canvas already holding
its tagged object. -/
theorem C5_update_witness :
    (((true : Bool) = true → (true : Bool) = true →
       (get_object_by_tag
         (image_layer_update
           { tag := "_image", has_img := true,
             state := { visible := true, zorder := 3 } } []) "_image").isSome = true) ∧
     ((true : Bool) = false →
       get_object_by_tag
         (image_layer_update
           { tag := "_image", has_img := true,
             state := { visible := true, zorder := 3 } } []) "_image" = none) ∧
     ((get_object_by_tag ([] : Canvas) "_image").isSome = true →
       (get_object_by_tag
          (image_layer_update
            { tag := "_image", has_img := true,
              state := { visible := true, zorder := 3 } } []) "_image" = none ∨
        get_object_by_tag
          (image_layer_update
            { tag := "_image", has_img := true,
              state := { visible := true, zorder := 3 } } []) "_image" =
          some { tag := "_image", zorder := 3 }))) ∧
    (((false : Bool) = true → (true : Bool) = true →
       (get_object_by_tag
         (subset_layer_update
           { tag := "layerA", has_img := true,
             state := { visible := false, zorder := 2 },
             mask_computable := true }
           [{ tag := "layerA", zorder := 7 }]).1 "layerA").isSome = true) ∧
     ((false : Bool) = false →
       get_object_by_tag
         (subset_layer_update
           { tag := "layerA", has_img := true,
             state := { visible := false, zorder := 2 },
             mask_computable := true }
           [{ tag := "layerA", zorder := 7 }]).1 "layerA" = none) ∧
     ((get_object_by_tag [{ tag := "layerA", zorder := 7 }] "layerA").isSome = true →
       (get_object_by_tag
          (subset_layer_update
            { tag := "layerA", has_img := true,
              state := { visible := false, zorder := 2 },
              mask_computable := true }
            [{ tag := "layerA", zorder := 7 }]).1 "layerA" = none ∨
        get_object_by_tag
          (subset_layer_update
            { tag := "layerA", has_img := true,
              state := { visible := false, zorder := 2 },
              mask_computable := true }
            [{ tag := "layerA", zorder := 7 }]).1 "layerA" =
          some { tag := "layerA", zorder := 2 }))) :=
  C5_update
    { tag := "_image", has_img := true, state := { visible := true, zorder := 3 } }
    { tag := "layerA", has_img := true,
      state := { visible := false, zorder := 2 }, mask_computable := true }
    [] [{ tag := "layerA", zorder := 7 }]

/-! ## Viewer and ROI tools (qt/viewer_widget.py, qt/mouse_modes.py)

The drawn shapes, the host region-of-interest objects, the eight ROI
drawing tools, and the viewer state touched by the draw-mode plumbing.
Coordinates are modelled as integers (their values are never inspected by
the code under verification, only carried). -/

/-- A toolkit-native drawn shape on the ginga canvas. -/
inductive Shape where
  | rect (x1 y1 x2 y2 : Int)
  | circle (x y radius : Int)
  | polygon (pts : List (Int × Int))
  | freepolygon (pts : List (Int × Int))
  | path (pts : List (Int × Int))
  | point (x y : Int)
  deriving Repr, DecidableEq

/-- A host-native (glue) selection-region object. -/
inductive Roi where
  | rectangular (x1 y1 x2 y2 : Int)
  | circular (x y radius : Int)
  | polygonal (pts : List (Int × Int))
  | path (pts : List (Int × Int))
  | point (x y : Int)
  deriving Repr, DecidableEq

/-- Modelled from the spec: the module `glue_ginga.qt.utils`, which defines
`ginga_graphic_to_roi`, is not among the provided sources.  Per the spec it
is the pure, stateless, total function mapping each drawn shape kind
(rectangle, circle, polygon, freehand, path, point) to the corresponding
host selection-region kind. -/
def ginga_graphic_to_roi : Shape → Roi
  | .rect x1 y1 x2 y2 => .rectangular x1 y1 x2 y2
  | .circle x y radius => .circular x y radius
  | .polygon pts => .polygonal pts
  | .freepolygon pts => .polygonal pts
  | .path pts => .path pts
  | .point x y => .point x y

/-- The eight ROI drawing tools of qt/mouse_modes.py (all subclasses of
`GingaROIMode`, sharing its `opn_exec`). -/
inductive Tool where
  | rectangleROI
  | circleROI
  | polygonROI
  | lassoROI
  | pathROI
  | hrange
  | vrange
  | pick
  deriving Repr, DecidableEq, Fintype

/-- The fixed mode-name string each tool forwards to the canvas
(the first argument of `set_drawtype` in its `activate`). -/
def tool_draw_type : Tool → String
  | .rectangleROI => "rectangle"
  | .circleROI => "circle"
  | .polygonROI => "polygon"
  | .lassoROI => "freepolygon"
  | .pathROI => "path"
  | .hrange => "xrange"
  | .vrange => "yrange"
  | .pick => "point"

/-- The glue subset state built by `roi_to_subset_state(roi, x_att=...,
y_att=...)` from the host glue library: the region together with the two
viewer attributes it is built over. -/
structure SubsetState where
  roi : Roi
  x_att : String
  y_att : String
  deriving Repr, DecidableEq

/-- The `GingaViewer` state touched by the ROI plumbing: the tagged canvas
objects, the draw-mode settings, the active operation object, the stored
ROI tag, the current x/y attributes of the viewer state, and the log of
subset states handed to `apply_subset_state`. -/
structure Viewer where
  canvas : List (String × Shape)
  draw_enabled : Bool
  draw_mode : Option String
  drawtype : String
  draw_context_self : Bool
  opn_obj : Option Tool
  roi_tag : Option String
  x_att : String
  y_att : String
  applied : List SubsetState
  deriving Repr, DecidableEq

/-- Embedding of `canvas.get_object_by_tag` on the viewer canvas. -/
def lookup_tag (c : List (String × Shape)) (t : String) : Option Shape :=
  (c.find? (fun e => e.1 == t)).map (fun e => e.2)

/-- Embedding of `canvas.delete_object_by_tag(tag)`: the object under the
tag is removed (ginga keeps at most one object per tag). -/
def delete_tag (c : List (String × Shape)) (t : String) :
    List (String × Shape) :=
  c.filter (fun e => !(e.1 == t))

/-- Embedding of `canvas.delete_object(obj)`: remove the first entry
holding the object. -/
def delete_object : List (String × Shape) → Shape → List (String × Shape)
  | [], _ => []
  | e :: es, o => if e.2 == o then es else e :: delete_object es o

/-- Embedding of `GingaViewer._set_roi_mode(opn_obj, name, mode,
**kwargs)`: store the operation object, enable drawing exactly when the
mode is the string draw, set the draw mode, make this viewer the draw
context of the canvas, and set the draw type to the given name (the
styling keyword arguments of `set_drawtype` are not modelled). -/
def set_roi_mode (v : Viewer) (opn : Option Tool) (name : String)
    (mode : Option String) : Viewer :=
  { v with opn_obj := opn,
           draw_enabled := (mode == some "draw"),
           draw_mode := mode,
           draw_context_self := true,
           drawtype := name }

/-- Embedding of each tool's `activate`:
`self.viewer._set_roi_mode(self, name, "draw", ...)`. -/
def Tool.activate (t : Tool) (v : Viewer) : Viewer :=
  set_roi_mode v (some t) (tool_draw_type t) (some "draw")

/-- Embedding of each tool's `deactivate`:
`self.viewer._set_roi_mode(None, name, None)`. -/
def Tool.deactivate (t : Tool) (v : Viewer) : Viewer :=
  set_roi_mode v none (tool_draw_type t) none

/-- Embedding of `GingaViewer.apply_roi`: build a subset state over the
current x and y attributes of the viewer state via `roi_to_subset_state`
and hand it to `apply_subset_state`. -/
def apply_roi (v : Viewer) (roi : Roi) : Viewer :=
  { v with applied :=
      v.applied ++ [{ roi := roi, x_att := v.x_att, y_att := v.y_att }] }

/-- Embedding of `GingaROIMode.opn_exec(viewer, tag, obj)`: delete the
drawn shape from the canvas by its tag (`KeyError` if the tag is absent),
convert the shape via `ginga_graphic_to_roi`, and hand the region to
`viewer.apply_roi`. -/
def opn_exec (v : Viewer) (tag : String) (obj : Shape) :
    Except PyErr Viewer :=
  match lookup_tag v.canvas tag with
  | none => .error .keyError
  | some _ =>
      let v1 := { v with canvas := delete_tag v.canvas tag }
      let roi := ginga_graphic_to_roi obj
      .ok (apply_roi v1 roi)

/-- Embedding of `GingaViewer._apply_roi_cb(canvas, tag)` (the draw-event
callback): do nothing when the draw context of the canvas is not this
viewer; otherwise store the ROI tag, look the drawn object up, and either
delete it and clear the tag (no operation object) or dispatch to the
operation object's `opn_exec`. -/
def apply_roi_cb (v : Viewer) (tag : String) : Except PyErr Viewer :=
  if v.draw_context_self = false then .ok v
  else
    let v1 := { v with roi_tag := some tag }
    match lookup_tag v1.canvas tag with
    | none => .error .keyError
    | some obj =>
        match v1.opn_obj with
        | none => .ok { v1 with canvas := delete_object v1.canvas obj,
                                roi_tag := none }
        | some _ => opn_exec v1 tag obj

/-- Embedding of `GingaViewer._update_roi_cb(canvas, obj)` (the edit-event
callback): do nothing when the draw context is not this viewer or there is
no operation object; the ROI tools define no `opn_update`, so the dispatch
raises `AttributeError` (only the guard branches are reachable under the
claims). -/
def update_roi_cb (v : Viewer) (obj : Shape) : Except PyErr Viewer :=
  if v.draw_context_self = false then .ok v
  else
    match v.opn_obj with
    | none => .ok v
    | some _ => .error (.attributeError "opn_update")

theorem lookup_tag_delete (c : List (String × Shape)) (t : String) :
    lookup_tag (delete_tag c t) t = none := by
  induction c with
  | nil => rfl
  | cons e es ih =>
      by_cases h : e.1 == t
      · simpa [delete_tag, List.filter_cons, h] using ih
      · simpa [delete_tag, lookup_tag, List.filter_cons, h,
          List.find?_cons] using ih

/-- C2: when the user finishes a drawing gesture on a shape present on the
canvas under its tag, `opn_exec` removes the drawn shape from the canvas,
converts it via `ginga_graphic_to_roi` into a host-native region object,
and hands it to `apply_roi`, which appends to the selection pipeline the
subset state built from that region over the current x and y attributes of
the viewer state. -/
theorem C2_opn_exec (v : Viewer) (tag : String) (obj : Shape)
    (h : (lookup_tag v.canvas tag).isSome = true) :
    ∃ v', opn_exec v tag obj = Except.ok v' ∧
      lookup_tag v'.canvas tag = none ∧
      v'.applied = v.applied ++
        [{ roi := ginga_graphic_to_roi obj, x_att := v.x_att,
           y_att := v.y_att }] := by
  rcases h0 : lookup_tag v.canvas tag with _ | s
  · rw [h0] at h
    simp at h
  · refine ⟨apply_roi { v with canvas := delete_tag v.canvas tag }
      (ginga_graphic_to_roi obj), ?_, ?_, ?_⟩
    · unfold opn_exec
      rw [h0]
    · exact lookup_tag_delete v.canvas tag
    · rfl

/-- A concrete viewer holding one drawn rectangle under the tag t1, with
the rectangle tool active. -/
def demoViewer : Viewer :=
  { canvas := [("t1", Shape.rect 0 0 2 3)],
    draw_enabled := true,
    draw_mode := some "draw",
    drawtype := "rectangle",
    draw_context_self := true,
    opn_obj := some Tool.rectangleROI,
    roi_tag := none,
    x_att := "Pixel x",
    y_att := "Pixel y",
    applied := [] }

/-- Witness for C2 at the concrete viewer. -/
theorem C2_opn_exec_witness :
    ∃ v', opn_exec demoViewer "t1" (Shape.rect 0 0 2 3) = Except.ok v' ∧
      lookup_tag v'.canvas "t1" = none ∧
      v'.applied = demoViewer.applied ++
        [{ roi := ginga_graphic_to_roi (Shape.rect 0 0 2 3),
           x_att := demoViewer.x_att, y_att := demoViewer.y_att }] :=
  C2_opn_exec demoViewer "t1" (Shape.rect 0 0 2 3) (by decide)

/-- C6: each ROI drawing tool's `activate` forwards its fixed mode-name
string verbatim to the canvas as the draw type while enabling draw mode
and installing itself as the operation object; `deactivate` passes a None
operation object for the same mode name and disables drawing; and the
tool-to-mode-string mapping is one-to-one, with the eight fixed strings
rectangle, circle, polygon, freepolygon, path, xrange, yrange, point. -/
theorem C6_tool_modes (v : Viewer) (t : Tool) :
    ((Tool.activate t v).drawtype = tool_draw_type t ∧
     (Tool.activate t v).draw_enabled = true ∧
     (Tool.activate t v).draw_mode = some "draw" ∧
     (Tool.activate t v).opn_obj = some t) ∧
    ((Tool.deactivate t v).opn_obj = none ∧
     (Tool.deactivate t v).draw_enabled = false ∧
     (Tool.deactivate t v).draw_mode = none ∧
     (Tool.deactivate t v).drawtype = tool_draw_type t) ∧
    (tool_draw_type Tool.rectangleROI = "rectangle" ∧
     tool_draw_type Tool.circleROI = "circle" ∧
     tool_draw_type Tool.polygonROI = "polygon" ∧
     tool_draw_type Tool.lassoROI = "freepolygon" ∧
     tool_draw_type Tool.pathROI = "path" ∧
     tool_draw_type Tool.hrange = "xrange" ∧
     tool_draw_type Tool.vrange = "yrange" ∧
     tool_draw_type Tool.pick = "point") ∧
    (∀ t1 t2 : Tool, tool_draw_type t1 = tool_draw_type t2 → t1 = t2) := by
  refine ⟨⟨rfl, rfl, rfl, rfl⟩, ⟨rfl, rfl, rfl, rfl⟩, ?_, ?_⟩
  · exact ⟨rfl, rfl, rfl, rfl, rfl, rfl, rfl, rfl⟩
  · decide

/-- Witness for C6 at the concrete viewer and the lasso tool. -/
theorem C6_tool_modes_witness :
    ((Tool.activate Tool.lassoROI demoViewer).drawtype =
       tool_draw_type Tool.lassoROI ∧
     (Tool.activate Tool.lassoROI demoViewer).draw_enabled = true ∧
     (Tool.activate Tool.lassoROI demoViewer).draw_mode = some "draw" ∧
     (Tool.activate Tool.lassoROI demoViewer).opn_obj = some Tool.lassoROI) ∧
    ((Tool.deactivate Tool.lassoROI demoViewer).opn_obj = none ∧
     (Tool.deactivate Tool.lassoROI demoViewer).draw_enabled = false ∧
     (Tool.deactivate Tool.lassoROI demoViewer).draw_mode = none ∧
     (Tool.deactivate Tool.lassoROI demoViewer).drawtype =
       tool_draw_type Tool.lassoROI) ∧
    (tool_draw_type Tool.rectangleROI = "rectangle" ∧
     tool_draw_type Tool.circleROI = "circle" ∧
     tool_draw_type Tool.polygonROI = "polygon" ∧
     tool_draw_type Tool.lassoROI = "freepolygon" ∧
     tool_draw_type Tool.pathROI = "path" ∧
     tool_draw_type Tool.hrange = "xrange" ∧
     tool_draw_type Tool.vrange = "yrange" ∧
     tool_draw_type Tool.pick = "point") ∧
    (∀ t1 t2 : Tool, tool_draw_type t1 = tool_draw_type t2 → t1 = t2) :=
  C6_tool_modes demoViewer Tool.lassoROI

/-- C10: a completed drawing gesture never reaches the selection pipeline
unless an ROI tool is active.  When the draw context of the canvas is not
this viewer, both the draw-event and the edit-event callbacks leave the
viewer unchanged; when it is and the operation object is None, the
draw-event callback deletes the drawn shape, clears the stored ROI tag,
and leaves the applied-subset-state log unchanged. -/
theorem C10_guarded_callbacks (v : Viewer) (tag : String) (dobj obj : Shape) :
    (v.draw_context_self = false →
       apply_roi_cb v tag = Except.ok v ∧
       update_roi_cb v dobj = Except.ok v) ∧
    (v.draw_context_self = true → v.opn_obj = none →
       lookup_tag v.canvas tag = some obj →
       apply_roi_cb v tag =
         Except.ok { v with canvas := delete_object v.canvas obj,
                            roi_tag := none } ∧
       ({ v with canvas := delete_object v.canvas obj,
                 roi_tag := none } : Viewer).applied = v.applied) := by
  constructor
  · intro hctx
    constructor
    · unfold apply_roi_cb
      rw [hctx]
      rfl
    · unfold update_roi_cb
      rw [hctx]
      rfl
  · intro hctx hopn hfound
    constructor
    · unfold apply_roi_cb
      rw [hctx]
      simp only [Bool.true_eq_false, if_neg, not_false_eq_true]
      have hfound' : lookup_tag ({ v with roi_tag := some tag } : Viewer).canvas tag =
          some obj := hfound
      rw [hfound', hopn]
    · rfl

/-- A viewer with no active ROI tool whose canvas holds one drawn circle. -/
def idleViewer : Viewer :=
  { canvas := [("t2", Shape.circle 1 1 4)],
    draw_enabled := false,
    draw_mode := none,
    drawtype := "circle",
    draw_context_self := true,
    opn_obj := none,
    roi_tag := some "t2",
    x_att := "Pixel x",
    y_att := "Pixel y",
    applied := [] }

/-- Witness for C10 at the concrete idle viewer. -/
theorem C10_guarded_callbacks_witness :
    (idleViewer.draw_context_self = false →
       apply_roi_cb idleViewer "t2" = Except.ok idleViewer ∧
       update_roi_cb idleViewer (Shape.circle 1 1 4) = Except.ok idleViewer) ∧
    (idleViewer.draw_context_self = true → idleViewer.opn_obj = none →
       lookup_tag idleViewer.canvas "t2" = some (Shape.circle 1 1 4) →
       apply_roi_cb idleViewer "t2" =
         Except.ok { idleViewer with
           canvas := delete_object idleViewer.canvas (Shape.circle 1 1 4),
           roi_tag := none } ∧
       ({ idleViewer with
           canvas := delete_object idleViewer.canvas (Shape.circle 1 1 4),
           roi_tag := none } : Viewer).applied = idleViewer.applied) :=
  C10_guarded_callbacks idleViewer "t2" (Shape.circle 1 1 4) (Shape.circle 1 1 4)

/-! ## Plugin GUI error handling (plugins/Glue.py, `Glue.put_data_cb`)

The plugin GUI state read and written by `put_data_cb` and
`error_no_glue`: the enabled flags of the four buttons, the contents of
the data-name combobox, the `data_names` list, and the log of modal error
messages shown through `fv.show_error`, in order. -/

/-- The plugin GUI state. -/
structure GlueGUI where
  start_glue_enabled : Bool
  stop_glue_enabled : Bool
  put_data_enabled : Bool
  get_data_enabled : Bool
  dataitem : List String
  data_names : List String
  errors : List String
  deriving Repr, DecidableEq

/-- Embedding of `fv.show_error`: append a modal error message. -/
def show_error (msg : String) (g : GlueGUI) : GlueGUI :=
  { g with errors := g.errors ++ [msg] }

/-- Embedding of `Glue.error_no_glue(verbose)`: reset the GUI to the
no-session state (start enabled; stop, put-data and get-data disabled;
the data-name list cleared) and, when verbose, show the no-session error. -/
def error_no_glue (verbose : Bool) (g : GlueGUI) : GlueGUI :=
  let g1 := { g with start_glue_enabled := true,
                     stop_glue_enabled := false,
                     put_data_enabled := false,
                     get_data_enabled := false,
                     dataitem := [],
                     data_names := [] }
  if verbose then show_error "No glue session running!" g1 else g1

/-- The active channel as `put_data_cb` sees it: its name and the current
image, if any (the image payload is irrelevant here and modelled by its
name). -/
structure Channel where
  name : String
  current_image : Option String
  deriving Repr, DecidableEq

/-- Embedding of `Glue.put_data_cb`.  Inputs: whether a Glue session is
running (`self.glue_app is not None`), the current channel, the outcome of
the try block, and the GUI state.  The body of the try block (building the
glue Data object and its WCS coordinates, `glue_app.add_data`, `raise_`)
is abstracted as `send_result`, the outcome of sending the current image
to the Glue session; its exception text is the `str(e)` of whatever it
raises.  The channel-message quotes around the channel name are omitted. -/
def put_data_cb (glue_app : Bool) (channel : Option Channel)
    (send_result : Except String Unit) (g : GlueGUI) : GlueGUI :=
  if glue_app = false then error_no_glue true g
  else
    match channel with
    | none => show_error "No active channel!" g
    | some ch =>
        match ch.current_image with
        | none => show_error ("No data in channel " ++ ch.name) g
        | some _ =>
            match send_result with
            | .ok _ => g
            | .error e =>
                error_no_glue true
                  (show_error ("Error sending data to Glue: " ++ e) g)

/-- C4: if sending the current image to the Glue session raises any
exception, `put_data_cb` surfaces the exception text as a modal error
message and resets the GUI to the no-session state: start enabled; stop,
put-data and get-data disabled; the data-name list cleared.  The whole
effect is this single deterministic reset (followed by the no-session
message that `error_no_glue` shows): no retry, no partial recovery. -/
theorem C4_put_data_error (channel : Channel) (img e : String) (g : GlueGUI)
    (hch : channel.current_image = some img) :
    (put_data_cb true (some channel) (Except.error e) g).errors =
      g.errors ++ ["Error sending data to Glue: " ++ e,
                   "No glue session running!"] ∧
    (put_data_cb true (some channel) (Except.error e) g).start_glue_enabled = true ∧
    (put_data_cb true (some channel) (Except.error e) g).stop_glue_enabled = false ∧
    (put_data_cb true (some channel) (Except.error e) g).put_data_enabled = false ∧
    (put_data_cb true (some channel) (Except.error e) g).get_data_enabled = false ∧
    (put_data_cb true (some channel) (Except.error e) g).dataitem = [] ∧
    (put_data_cb true (some channel) (Except.error e) g).data_names = [] := by
  have hred0 : put_data_cb true (some channel) (Except.error e) g =
      (match channel.current_image with
       | none => show_error ("No data in channel " ++ channel.name) g
       | some _ =>
           error_no_glue true
             (show_error ("Error sending data to Glue: " ++ e) g)) := rfl
  have hred : put_data_cb true (some channel) (Except.error e) g =
      error_no_glue true (show_error ("Error sending data to Glue: " ++ e) g) := by
    rw [hred0, hch]
  rw [hred]
  unfold error_no_glue show_error
  refine ⟨?_, rfl, rfl, rfl, rfl, rfl, rfl⟩
  simp

/-- Witness for C4 at a concrete channel, exception text and GUI state. -/
theorem C4_put_data_error_witness :
    (put_data_cb true (some { name := "Image", current_image := some "img1" })
        (Except.error "boom")
        { start_glue_enabled := false, stop_glue_enabled := true,
          put_data_enabled := true, get_data_enabled := true,
          dataitem := ["d1"], data_names := ["d1"], errors := [] }).errors =
      ([] : List String) ++ ["Error sending data to Glue: " ++ "boom",
                             "No glue session running!"] ∧
    (put_data_cb true (some { name := "Image", current_image := some "img1" })
        (Except.error "boom")
        { start_glue_enabled := false, stop_glue_enabled := true,
          put_data_enabled := true, get_data_enabled := true,
          dataitem := ["d1"], data_names := ["d1"], errors := [] }).start_glue_enabled = true ∧
    (put_data_cb true (some { name := "Image", current_image := some "img1" })
        (Except.error "boom")
        { start_glue_enabled := false, stop_glue_enabled := true,
          put_data_enabled := true, get_data_enabled := true,
          dataitem := ["d1"], data_names := ["d1"], errors := [] }).stop_glue_enabled = false ∧
    (put_data_cb true (some { name := "Image", current_image := some "img1" })
        (Except.error "boom")
        { start_glue_enabled := false, stop_glue_enabled := true,
          put_data_enabled := true, get_data_enabled := true,
          dataitem := ["d1"], data_names := ["d1"], errors := [] }).put_data_enabled = false ∧
    (put_data_cb true (some { name := "Image", current_image := some "img1" })
        (Except.error "boom")
        { start_glue_enabled := false, stop_glue_enabled := true,
          put_data_enabled := true, get_data_enabled := true,
          dataitem := ["d1"], data_names := ["d1"], errors := [] }).get_data_enabled = false ∧
    (put_data_cb true (some { name := "Image", current_image := some "img1" })
        (Except.error "boom")
        { start_glue_enabled := false, stop_glue_enabled := true,
          put_data_enabled := true, get_data_enabled := true,
          dataitem := ["d1"], data_names := ["d1"], errors := [] }).dataitem = [] ∧
    (put_data_cb true (some { name := "Image", current_image := some "img1" })
        (Except.error "boom")
        { start_glue_enabled := false, stop_glue_enabled := true,
          put_data_enabled := true, get_data_enabled := true,
          dataitem := ["d1"], data_names := ["d1"], errors := [] }).data_names = [] :=
  C4_put_data_error { name := "Image", current_image := some "img1" }
    "img1" "boom"
    { start_glue_enabled := false, stop_glue_enabled := true,
      put_data_enabled := true, get_data_enabled := true,
      dataitem := ["d1"], data_names := ["d1"], errors := [] } rfl

end GlueGinga
